import Mathlib

/-!
Shallow embedding of the vox8 JavaScript SDK (`src/client.ts`, `src/audio.ts`,
`src/types.ts`).  The client is a single-threaded, event-driven WebSocket
client; we model its mutable fields as a `Client` record and each callback
(`onopen`, `onmessage`, `onerror`, `onclose`) and public method as a pure
state-transition function.  Handler invocations are modelled as a list of
emitted events; transport sends as a list of outbound messages recorded on
the socket state.  JavaScript `undefined` for an absent field is modelled by
`Option`; JavaScript string truthiness (`!s` is true for `undefined` and
`""`) is modelled by `truthy`.
-/

namespace Vox8

/-- JavaScript truthiness of an optional string: `undefined`/absent and the
empty string are falsy, every other string is truthy. -/
def truthy : Option String → Bool
  | none => false
  | some s => !s.isEmpty

/-- The `Vox8Config` record as passed to the constructor (`types.ts`):
`wsUrl` and `targetLanguage` are required, the rest optional.  `voiceMode`
is one of the strings "match" | "male" | "female" on the wire; we keep it a
string as at JS runtime. -/
structure Vox8Config where
  wsUrl : String
  targetLanguage : String
  sourceLanguage : Option String
  voiceMode : Option String
  sessionToken : Option String
  apiKey : Option String
  deriving Repr, DecidableEq

/-- The config after the constructor's default merge
`{ sourceLanguage: 'auto', voiceMode: 'match', ...config }`. -/
structure StoredConfig where
  wsUrl : String
  targetLanguage : String
  sourceLanguage : String
  voiceMode : String
  sessionToken : Option String
  apiKey : Option String
  deriving Repr, DecidableEq

/-- The `Vox8ClientState` union from `client.ts`:
`'disconnected' | 'connecting' | 'ready' | 'error'`. -/
inductive Vox8ClientState where
  | disconnected
  | connecting
  | ready
  | error
  deriving Repr, DecidableEq

/-- WebSocket readyState (CONNECTING/OPEN/CLOSING/CLOSED).  `opened` stands
for the JS constant `WebSocket.OPEN`. -/
inductive WsReadyState where
  | conn
  | opened
  | closing
  | closed
  deriving Repr, DecidableEq

/-- Outbound protocol messages (`JSON.stringify` payloads handed to
`ws.send`).  `sessionStart` carries the fixed `audio_format` and exactly the
credential fields the code put into the record. -/
inductive OutMsg where
  | sessionStart (source_language target_language voice_mode audio_format : String)
      (session_token api_key : Option String)
  | audioOut (audio : String)
  | keepalive
  | sessionEnd
  deriving Repr, DecidableEq

/-- The transport handle: its readyState plus the log of frames sent on it. -/
structure WsState where
  readyState : WsReadyState
  sent : List OutMsg
  deriving Repr, DecidableEq

/-- An inbound frame after `JSON.parse`: untyped structured data.  Every
field the dispatcher reads is optional (`undefined` when absent), including
the `type` discriminant itself. -/
structure InboundMsg where
  type_ : Option String
  session_id : Option String
  text : Option String
  is_final : Option Bool
  translation : Option String
  audio : Option String
  sequence : Option Int
  original_text : Option String
  translated_text : Option String
  code : Option String
  message : Option String
  fatal : Option Bool
  deriving Repr, DecidableEq

/-- A frame with every field absent; concrete messages override fields. -/
def InboundMsg.empty : InboundMsg :=
  ⟨none, none, none, none, none, none, none, none, none, none, none, none⟩

/-- Typed events dispatched to the registered handlers (`Vox8Event` in
`types.ts`).  Fields come from unchecked `as` casts, so each may be
`undefined`; we keep them `Option`. -/
inductive Vox8Event where
  | sessionReadyEvt (sessionId : Option String)
  | transcriptEvt (text : Option String) (isFinal : Option Bool) (translation : Option String)
  | audioEvt (audio : Option String) (sequence : Option Int)
      (originalText translatedText : Option String)
  | errorEvt (code message : Option String) (fatal : Option Bool)
  | sessionCompleteEvt
  deriving Repr, DecidableEq

/-! ## Audio playback (`AudioPlayer` in `audio.ts`)

The player owns a FIFO `queue` and an `isPlaying` flag.  `playNext` is
async: it dequeues the head and suspends awaiting decode; on decode failure
it calls `playNext` again, on render completion (`source.onended`) it calls
`playNext` again.  We model the segment whose decode/render is currently in
flight as `pending`.  Segments are polymorphic in `α` because the JS queue
is untyped (the client may push an `undefined` payload). -/

structure AudioPlayer (α : Type) where
  queue : List α
  isPlaying : Bool
  deriving Repr, DecidableEq

/-- Player together with the segment currently being decoded/rendered. -/
structure PlayerRun (α : Type) where
  player : AudioPlayer α
  pending : Option α
  deriving Repr, DecidableEq

/-- The idle player: empty queue, not playing, nothing in flight. -/
def PlayerRun.idle {α : Type} : PlayerRun α := ⟨⟨[], false⟩, none⟩

/-- Method `enqueue(audioBase64)`: push on the queue; if not playing, invoke
`playNext`, which runs synchronously up to its first `await`: it flips
`isPlaying`, dequeues the head and leaves it pending decode. -/
def PlayerRun.enqueueStep {α : Type} (r : PlayerRun α) (s : α) : PlayerRun α :=
  let q := r.player.queue ++ [s]
  if r.player.isPlaying then { r with player := { r.player with queue := q } }
  else
    match q with
    | [] => { player := { queue := [], isPlaying := false }, pending := none }
    | h :: t => { player := { queue := t, isPlaying := true }, pending := some h }

/-- Observable playback actions: start and end of a render, or a logged
decode/render failure (the `catch` branch of `playNext`). -/
inductive PAction (α : Type) where
  | renderStart (s : α)
  | renderEnd (s : α)
  | decodeFail (s : α)
  deriving Repr, DecidableEq

/-- Drain the player to quiescence, given `ok s` telling whether decoding
segment `s` succeeds.  The event loop delivers the pending segment's decode
result; success renders it and `onended` re-invokes `playNext`, failure is
caught and `playNext` is re-invoked directly — either way the next head
becomes pending and the drain continues until the queue is empty. -/
def drainTrace {α : Type} (ok : α → Bool) : α → List α → List (PAction α)
  | h, [] => if ok h then [.renderStart h, .renderEnd h] else [.decodeFail h]
  | h, h' :: t =>
      (if ok h then [PAction.renderStart h, PAction.renderEnd h] else [PAction.decodeFail h])
        ++ drainTrace ok h' t

/-- Full run for the scenario of the claim: starting from the idle player,
enqueue the segments of `L` (synchronous calls, so all complete before any
decode result is delivered), then drain to quiescence. -/
def runFromIdle {α : Type} (ok : α → Bool) (L : List α) : List (PAction α) :=
  let r := L.foldl PlayerRun.enqueueStep PlayerRun.idle
  match r.pending with
  | none => []
  | some h => drainTrace ok h r.player.queue

/-- The segments whose render was invoked, in trace order. -/
def rendersOf {α : Type} : List (PAction α) → List α
  | [] => []
  | .renderStart s :: t => s :: rendersOf t
  | _ :: t => rendersOf t

/-- A trace is sequential/non-overlapping: every `renderStart` is
immediately followed by the matching `renderEnd` before anything else. -/
def wellSeq {α : Type} [DecidableEq α] : List (PAction α) → Bool
  | [] => true
  | .renderStart s :: .renderEnd s' :: t => s = s' && wellSeq t
  | .decodeFail _ :: t => wellSeq t
  | _ => false

/-! ## The client (`Vox8Client` in `client.ts`) -/

/-- The mutable private fields of `Vox8Client`.  `microphone` abstracts the
nullable `MicrophoneCapture` handle to presence. -/
structure Client where
  config : StoredConfig
  ws : Option WsState
  sessionReady : Bool
  microphone : Bool
  player : Option (PlayerRun (Option String))
  state : Vox8ClientState
  sessionId : Option String
  deriving Repr, DecidableEq

/-- The constructor: throws unless one of `sessionToken`/`apiKey` is truthy
(`!config.sessionToken && !config.apiKey`), then stores the config merged
over the defaults `sourceLanguage: 'auto'`, `voiceMode: 'match'`. -/
def Client.create (cfg : Vox8Config) : Except String Client :=
  if !truthy cfg.sessionToken && !truthy cfg.apiKey then
    .error "Either sessionToken or apiKey must be provided"
  else
    .ok
      { config :=
          { wsUrl := cfg.wsUrl
            targetLanguage := cfg.targetLanguage
            sourceLanguage := cfg.sourceLanguage.getD "auto"
            voiceMode := cfg.voiceMode.getD "match"
            sessionToken := cfg.sessionToken
            apiKey := cfg.apiKey }
        ws := none
        sessionReady := false
        microphone := false
        player := none
        state := .disconnected
        sessionId := none }

/-- The `session_start` frame built in the `onopen` handler: config fields
plus `audio_format: 'pcm_s16le'`, and `session_token` when the config's
session token is truthy, else `api_key` when the API key is truthy. -/
def buildSessionStart (cfg : StoredConfig) : OutMsg :=
  .sessionStart cfg.sourceLanguage cfg.targetLanguage cfg.voiceMode "pcm_s16le"
    (if truthy cfg.sessionToken then cfg.sessionToken else none)
    (if truthy cfg.sessionToken then none
     else if truthy cfg.apiKey then cfg.apiKey else none)

/-- Method `connect()`: if a socket already exists the promise rejects
('Already connected') and nothing changes; otherwise state becomes
`connecting` and a fresh WebSocket is constructed. -/
def Client.connect (c : Client) : Client :=
  if c.ws.isSome then c
  else { c with state := .connecting, ws := some { readyState := .conn, sent := [] } }

/-- Transport open: the socket reaches OPEN and the `onopen` handler sends
the `session_start` frame. -/
def Client.onOpen (c : Client) : Client :=
  match c.ws with
  | none => c
  | some w =>
      { c with ws := some { readyState := .opened
                            sent := w.sent ++ [buildSessionStart c.config] } }

/-- Method `handleMessage(msg)`: dispatch on the `type` discriminant; returns the
updated client and the handler invocations, in order.  Unrecognized or
absent `type` falls through the `switch` untouched.  In the `error` case
`if (event.fatal)` is a truthiness test, so only `fatal: true` switches the
state. -/
def Client.handleMessage (c : Client) (msg : InboundMsg) : Client × List Vox8Event :=
  if msg.type_ = some "session_ready" then
    ({ c with sessionId := msg.session_id }, [.sessionReadyEvt msg.session_id])
  else if msg.type_ = some "transcript" then
    (c, [.transcriptEvt msg.text msg.is_final msg.translation])
  else if msg.type_ = some "audio" then
    (match c.player with
     | some p => { c with player := some (p.enqueueStep msg.audio) }
     | none => c,
     [.audioEvt msg.audio msg.sequence msg.original_text msg.translated_text])
  else if msg.type_ = some "error" then
    ({ c with state := if msg.fatal = some true then .error else c.state },
     [.errorEvt msg.code msg.message msg.fatal])
  else if msg.type_ = some "session_complete" then
    (c, [.sessionCompleteEvt])
  else (c, [])

/-- The `onmessage` handler: run `handleMessage`, then if the frame's type
is `session_ready`, set the session-ready flag, move to `ready` and resolve
the pending `connect()` promise.  The returned `Bool` records whether
`resolve()` was called. -/
def Client.onMessage (c : Client) (msg : InboundMsg) : Client × List Vox8Event × Bool :=
  let (c1, evts) := c.handleMessage msg
  if msg.type_ = some "session_ready" then
    ({ c1 with sessionReady := true, state := .ready }, evts, true)
  else (c1, evts, false)

/-- The `onerror` handler: state becomes `error` and the pending `connect()`
promise rejects. -/
def Client.onError (c : Client) : Client :=
  { c with state := .error }

/-- The `onclose` handler: clears the session-ready flag, moves to
`disconnected` and drops the socket handle.  (It does not touch
`sessionId`.) -/
def Client.onClose (c : Client) : Client :=
  { c with sessionReady := false, state := .disconnected, ws := none }

/-- Method `disconnect()`: send `session_end` if the socket is OPEN, stop the
microphone and playback, close and drop the socket, clear the session-ready
flag and go to `disconnected`.  (`sessionId` is not cleared.) -/
def Client.disconnect (c : Client) : Client :=
  let c1 :=
    match c.ws with
    | some w =>
        if w.readyState = WsReadyState.opened then
          { c with ws := some { w with sent := w.sent ++ [OutMsg.sessionEnd] } }
        else c
    | none => c
  { c1 with microphone := false, player := none, ws := none
            sessionReady := false, state := .disconnected }

/-- Method `sendAudio(audioBase64)`: silently returns unless the socket exists, is
OPEN, and the session-ready flag is set; otherwise sends an audio frame. -/
def Client.sendAudio (c : Client) (audioBase64 : String) : Client :=
  match c.ws with
  | none => c
  | some w =>
      if w.readyState ≠ .opened || !c.sessionReady then c
      else { c with ws := some { w with sent := w.sent ++ [OutMsg.audioOut audioBase64] } }

/-- Method `sendKeepalive()`: no-op unless the socket is OPEN. -/
def Client.sendKeepalive (c : Client) : Client :=
  match c.ws with
  | none => c
  | some w =>
      if w.readyState ≠ .opened then c
      else { c with ws := some { w with sent := w.sent ++ [OutMsg.keepalive] } }



/-- The guard of `sendAudio`, as a predicate: the negation of the early
return `!this.ws || this.ws.readyState !== WebSocket.OPEN ||
!this.sessionReady`. -/
def Client.sendAudioAllowed (c : Client) : Bool :=
  match c.ws with
  | none => false
  | some w => w.readyState = WsReadyState.opened && c.sessionReady

/-! ## PCM conversion (`floatTo16BitPCM` in `audio.ts`)

The loop body is `s = Math.max(-1, Math.min(1, x)); out[i] = s < 0 ? s *
0x8000 : s * 0x7fff`.  Samples are modelled as rationals (the inputs and
scale factors of interest are exactly representable in float, and the
arithmetic involved is exact).  Storing into an `Int16Array` truncates the
number toward zero and wraps it into the signed 16-bit range (the ToInt16
conversion); `toInt16` models that store. -/

/-- Truncation of a rational toward zero (the integer-conversion step of
the ToInt16 abstract operation): `Int.tdiv` is truncating division, and a
rational is its numerator over its (positive) denominator. -/
def truncQ (q : ℚ) : ℤ :=
  q.num.tdiv q.den

/-- ToInt16: truncate toward zero, reduce mod 2^16, map into
[-32768, 32767]. -/
def toInt16 (q : ℚ) : ℤ :=
  let m := truncQ q % 65536
  if m < 32768 then m else m - 65536

/-- One iteration of the `floatTo16BitPCM` loop: clamp to [-1, 1], scale
negatives by 0x8000 and non-negatives by 0x7fff, store as int16. -/
def floatTo16BitPCM1 (x : ℚ) : ℤ :=
  let s := max (-1) (min 1 x)
  toInt16 (if s < 0 then s * 32768 else s * 32767)

/-- Function `floatTo16BitPCM`: elementwise conversion of the sample
buffer. -/
def floatTo16BitPCM (l : List ℚ) : List ℤ :=
  l.map floatTo16BitPCM1

/-! ## Concrete inputs used by the witnesses and counterexamples -/

/-- Config with a session token only (the test fixture of
`client.test.ts`). -/
def cfgTok : Vox8Config :=
  ⟨"wss://test.com", "es", none, none, some "my-session-token", none⟩

/-- Config with an API key only. -/
def cfgKey : Vox8Config :=
  ⟨"wss://test.com", "fr", none, none, none, some "my-api-key"⟩

/-- Config with neither credential supplied. -/
def cfgNone : Vox8Config :=
  ⟨"wss://test.com", "es", none, none, none, none⟩

/-- Config that supplies the `sessionToken` field as the empty string. -/
def cfgEmptyTok : Vox8Config :=
  ⟨"wss://test.com", "es", none, none, some "", none⟩

/-- The client produced by constructing with `cfgTok`. -/
def clientTok : Client :=
  ⟨⟨"wss://test.com", "es", "auto", "match", some "my-session-token", none⟩,
   none, false, false, none, .disconnected, none⟩

/-- Inbound `session_ready` frame carrying `session_id: 'sess-123'`. -/
def msgReady : InboundMsg :=
  { InboundMsg.empty with type_ := some "session_ready", session_id := some "sess-123" }

/-- Inbound fatal `error` frame (the test fixture of `client.test.ts`). -/
def msgFatal : InboundMsg :=
  { InboundMsg.empty with
      type_ := some "error", code := some "invalid_api_key"
      message := some "Invalid API key", fatal := some true }

/-- Inbound non-fatal `error` frame. -/
def msgNonFatal : InboundMsg :=
  { InboundMsg.empty with
      type_ := some "error", code := some "rate_limited"
      message := some "Slow down", fatal := some false }

/-- Inbound frame with an unrecognized `type` discriminant. -/
def msgBogus : InboundMsg :=
  { InboundMsg.empty with type_ := some "totally_unknown" }

/-- The client after connect, transport open, and the `session_ready`
frame: state `ready`, session-ready flag set. -/
def afterReady : Client :=
  ((clientTok.connect.onOpen).onMessage msgReady).1

/-- The client after additionally receiving a fatal error frame: state
`error`, session-ready flag still set, socket still open. -/
def afterFatal : Client :=
  (afterReady.onMessage msgFatal).1

/-! ## The raw message callback (`onmessage` including `JSON.parse`)

The `onmessage` handler first runs `JSON.parse(event.data)`, with no
try/catch anywhere in the callback.  Parsing a raw text frame has three
shapes of outcome, enumerated by `ParseResult`: the text is not valid JSON
and `JSON.parse` throws a SyntaxError; the text parses to `null`, in which
case the `switch (msg.type)` in `handleMessage` throws a TypeError
(property access on null); or the text parses to any other value, whose
property reads yield the fields present or `undefined` (primitives box, so
every field reads as `undefined`) — the `InboundMsg` record.  An exception
escapes the callback before any client mutation. -/

/-- Exceptions the message callback can raise. -/
inductive JsError where
  | syntaxError
  | typeError
  deriving Repr, DecidableEq

/-- Outcome shapes of `JSON.parse(event.data)` on a raw text frame:
unparseable text (parse throws), the frame "null", or any other JSON value
read as an untyped record. -/
inductive ParseResult where
  | fail
  | nullVal
  | obj (msg : InboundMsg)
  deriving Repr, DecidableEq

/-- Result of the whole `onmessage` callback on a raw frame: the client
afterwards, the handler invocations, whether the pending connect resolved,
and the exception that escaped the callback, if any. -/
structure RawResult where
  client : Client
  events : List Vox8Event
  resolved : Bool
  thrown : Option JsError
  deriving Repr, DecidableEq

/-- The `onmessage` callback on a raw frame: `JSON.parse`, then
`handleMessage` and the session-ready check.  A SyntaxError from parsing,
or a TypeError from reading `.type` of null, escapes before any client
mutation, handler invocation, or promise resolution. -/
def Client.onMessageRaw (c : Client) (p : ParseResult) : RawResult :=
  match p with
  | .fail => ⟨c, [], false, some .syntaxError⟩
  | .nullVal => ⟨c, [], false, some .typeError⟩
  | .obj msg =>
      let r := c.onMessage msg
      ⟨r.1, r.2.1, r.2.2, none⟩


/-! ## Theorems -/

/-- Claim C1, counterexample: the configuration `cfgEmptyTok` supplies the
`sessionToken` field (as the empty string), yet construction fails — the
constructor tests JavaScript truthiness, not presence.  This refutes
"for every configuration supplying at least one of the two fields,
construction succeeds". -/
theorem C1_counterexample :
    cfgEmptyTok.sessionToken.isSome = true ∧
    Client.create cfgEmptyTok =
      .error "Either sessionToken or apiKey must be provided" :=
  ⟨rfl, rfl⟩

/-- Claim C1 (amended): construction fails with the configuration error
precisely when both credential fields are falsy (absent or empty); when at
least one is a non-empty string, construction succeeds and the client's
state is `disconnected`. -/
theorem C1_amended (cfg : Vox8Config) :
    (truthy cfg.sessionToken = false → truthy cfg.apiKey = false →
      Client.create cfg = .error "Either sessionToken or apiKey must be provided") ∧
    (truthy cfg.sessionToken = true ∨ truthy cfg.apiKey = true →
      ∃ c, Client.create cfg = .ok c ∧ c.state = .disconnected) := by
  constructor
  · intro h1 h2
    simp [Client.create, h1, h2]
  · intro h
    have hcond : (!truthy cfg.sessionToken && !truthy cfg.apiKey) = false := by
      rcases h with h | h <;> simp [h]
    refine ⟨⟨⟨cfg.wsUrl, cfg.targetLanguage, cfg.sourceLanguage.getD "auto",
      cfg.voiceMode.getD "match", cfg.sessionToken, cfg.apiKey⟩,
      none, false, false, none, .disconnected, none⟩, ?_, rfl⟩
    simp [Client.create, hcond]

/-- Witness for `C1_amended` at the concrete configurations `cfgNone`
(fails) and `cfgTok` (succeeds, state disconnected). -/
theorem C1_amended_witness :
    Client.create cfgNone = .error "Either sessionToken or apiKey must be provided" ∧
    ∃ c, Client.create cfgTok = .ok c ∧ c.state = .disconnected :=
  ⟨(C1_amended cfgNone).1 rfl rfl, (C1_amended cfgTok).2 (Or.inl rfl)⟩

/-- Claim C3, counterexample: after a full handshake recording session id
"sess-123", both `disconnect()` and the transport close handler leave the
stored session identifier in place — it is not cleared, refuting the claim
that it is cleared along with the session-ready flag. -/
theorem C3_counterexample :
    afterReady.sessionId = some "sess-123" ∧
    afterReady.disconnect.sessionId = some "sess-123" ∧
    afterReady.onClose.sessionId = some "sess-123" :=
  ⟨rfl, rfl, rfl⟩

/-- Claim C3 (amended): `disconnect()` and the transport close handler
clear the session-ready flag and set the state to `disconnected`, but they
retain the stored session identifier unchanged (it is only overwritten by
the next `session_ready` message). -/
theorem C3_amended (c : Client) :
    c.disconnect.sessionReady = false ∧
    c.disconnect.state = .disconnected ∧
    c.disconnect.sessionId = c.sessionId ∧
    c.onClose.sessionReady = false ∧
    c.onClose.state = .disconnected ∧
    c.onClose.sessionId = c.sessionId := by
  unfold Client.disconnect Client.onClose
  cases c.ws with
  | none => simp
  | some w =>
      by_cases h : w.readyState = WsReadyState.opened <;> simp [h]

/-- Claim C4, counterexample: in the reachable state `afterFatal` (fatal
error delivered after readiness) the connection state is `error`, not
`ready`, yet `sendAudio` still performs a transport send — the guard tests
the session-ready flag and the socket, not the state field.  This refutes
"for every client state in which the connection state is not 'ready',
sendAudio is a no-op that performs no transport send". -/
theorem C4_counterexample :
    afterFatal.state = Vox8ClientState.error ∧
    (afterFatal.sendAudio "AAAA").ws =
      some ⟨.opened, [buildSessionStart clientTok.config, .audioOut "AAAA"]⟩ :=
  ⟨rfl, rfl⟩

/-- Claim C4 (amended): `sendAudio` is a no-op exactly when its guard
fails — no socket, socket not OPEN, or session-ready flag unset; when the
guard holds it appends an audio frame to the transport, regardless of the
`state` field. -/
theorem C4_amended (c : Client) (p : String) :
    (c.sendAudioAllowed = false → c.sendAudio p = c) ∧
    (c.sendAudioAllowed = true → ∃ w, c.ws = some w ∧
      c.sendAudio p =
        { c with ws := some { w with sent := w.sent ++ [OutMsg.audioOut p] } }) := by
  unfold Client.sendAudio Client.sendAudioAllowed
  cases c.ws with
  | none => simp
  | some w =>
      by_cases h1 : w.readyState = WsReadyState.opened <;>
        by_cases h2 : c.sessionReady <;> simp [h1, h2]

/-- Witness for `C4_amended`: `clientTok` (no socket) drops the send;
`afterFatal` (open socket, ready flag set) performs it. -/
theorem C4_amended_witness :
    clientTok.sendAudio "x" = clientTok ∧
    ∃ w, afterFatal.ws = some w ∧
      afterFatal.sendAudio "AAAA" =
        { afterFatal with ws := some { w with sent := w.sent ++ [OutMsg.audioOut "AAAA"] } } :=
  ⟨(C4_amended clientTok "x").1 rfl, (C4_amended afterFatal "AAAA").2 rfl⟩

/-- Claim C5: delivering an error message after readiness invokes the error
handler exactly once with the decoded `code`, `message` and `fatal` fields,
switches the state to `error` exactly when the fatal flag is set, and a
non-fatal error message leaves the client (in particular its `ready` state)
unchanged. -/
theorem C5_error_dispatch (c : Client) (msg : InboundMsg) (f : Bool)
    (hs : c.state = .ready) (ht : msg.type_ = some "error")
    (hf : msg.fatal = some f) :
    (c.onMessage msg).2.1 = [.errorEvt msg.code msg.message (some f)] ∧
    ((c.onMessage msg).1.state = Vox8ClientState.error ↔ f = true) ∧
    (f = false → (c.onMessage msg).1 = c) := by
  refine ⟨?_, ?_, ?_⟩
  · simp [Client.onMessage, Client.handleMessage, ht, hf]
  · cases f <;> simp [Client.onMessage, Client.handleMessage, ht, hf, hs]
  · intro hf0
    subst hf0
    simp [Client.onMessage, Client.handleMessage, ht, hf]

/-- Witness for `C5_error_dispatch`: the fatal fixture at `afterReady`
moves the state to `error`; the non-fatal fixture leaves the client
untouched. -/
theorem C5_witness :
    (afterReady.onMessage msgFatal).2.1 =
      [.errorEvt (some "invalid_api_key") (some "Invalid API key") (some true)] ∧
    (afterReady.onMessage msgFatal).1.state = Vox8ClientState.error ∧
    (afterReady.onMessage msgNonFatal).1 = afterReady :=
  ⟨(C5_error_dispatch afterReady msgFatal true rfl rfl rfl).1,
   ((C5_error_dispatch afterReady msgFatal true rfl rfl rfl).2.1).mpr rfl,
   (C5_error_dispatch afterReady msgNonFatal false rfl rfl rfl).2.2 rfl⟩

/-- Claim C6: a `session_ready` frame delivered while `connect()` is
pending (state `connecting`) resolves the pending promise, sets the state
to `ready`, sets the session-ready flag (`isReady`), and records the
session identifier carried in the frame. -/
theorem C6_session_ready (c : Client) (msg : InboundMsg)
    (_hs : c.state = .connecting) (ht : msg.type_ = some "session_ready") :
    (c.onMessage msg).2.2 = true ∧
    (c.onMessage msg).1.state = .ready ∧
    (c.onMessage msg).1.sessionReady = true ∧
    (c.onMessage msg).1.sessionId = msg.session_id := by
  simp [Client.onMessage, Client.handleMessage, ht]

/-- Witness for `C6_session_ready` on the connected-and-open client and the
`session_ready` fixture. -/
theorem C6_witness :
    ((clientTok.connect.onOpen).onMessage msgReady).2.2 = true ∧
    ((clientTok.connect.onOpen).onMessage msgReady).1.state = .ready ∧
    ((clientTok.connect.onOpen).onMessage msgReady).1.sessionReady = true ∧
    ((clientTok.connect.onOpen).onMessage msgReady).1.sessionId = msgReady.session_id :=
  C6_session_ready (clientTok.connect.onOpen) msgReady rfl rfl

/-- Claim C8, counterexample: the claim says malformed frames raise no
error, but the callback has no try/catch — an unparseable text frame makes
`JSON.parse` throw a SyntaxError, and the frame "null" parses but makes
the `msg.type` read throw a TypeError.  Delivered to the ready client, an
exception escapes the callback in both cases. -/
theorem C8_counterexample :
    (afterReady.onMessageRaw ParseResult.fail).thrown = some JsError.syntaxError ∧
    (afterReady.onMessageRaw ParseResult.nullVal).thrown = some JsError.typeError :=
  ⟨rfl, rfl⟩

/-- Claim C8 (amended): an inbound frame that parses to a non-null value
whose `type` discriminant is absent or not one of the five recognized
kinds is silently ignored — no handler invoked, the connect promise not
resolved, the client unchanged, nothing thrown; a frame that is
unparseable, or that parses to null, likewise invokes no handler, resolves
nothing and leaves the client unchanged, but an exception escapes the
callback. -/
theorem C8_amended (c : Client) (p : ParseResult) :
    (∀ msg : InboundMsg, p = .obj msg →
      msg.type_ ≠ some "session_ready" → msg.type_ ≠ some "transcript" →
      msg.type_ ≠ some "audio" → msg.type_ ≠ some "error" →
      msg.type_ ≠ some "session_complete" →
      c.onMessageRaw p = ⟨c, [], false, none⟩) ∧
    (p = .fail ∨ p = .nullVal →
      (c.onMessageRaw p).client = c ∧ (c.onMessageRaw p).events = [] ∧
      (c.onMessageRaw p).resolved = false ∧ (c.onMessageRaw p).thrown ≠ none) := by
  constructor
  · intro msg hp h1 h2 h3 h4 h5
    subst hp
    simp [Client.onMessageRaw, Client.onMessage, Client.handleMessage,
      h1, h2, h3, h4, h5]
  · rintro (hp | hp) <;> subst hp <;>
      exact ⟨rfl, rfl, rfl, by simp [Client.onMessageRaw]⟩

/-- Witness for `C8_amended`: the "totally_unknown" frame leaves the ready
client untouched with nothing thrown; the unparseable frame throws. -/
theorem C8_amended_witness :
    afterReady.onMessageRaw (ParseResult.obj msgBogus) = ⟨afterReady, [], false, none⟩ ∧
    (afterReady.onMessageRaw ParseResult.fail).thrown ≠ none :=
  ⟨(C8_amended afterReady (ParseResult.obj msgBogus)).1 msgBogus rfl (by decide)
     (by decide) (by decide) (by decide) (by decide),
   ((C8_amended afterReady ParseResult.fail).2 (Or.inl rfl)).2.2.2⟩

/-- Claim C10: processing any inbound frame other than `session_ready`
(in particular any error frame, fatal or not) leaves the session-ready
flag unchanged; among the client's operations only the transport close
handler and `disconnect()` force it to false; and in the reachable state
after a fatal error the state is `error` while the flag is still set, so
`sendAudio` on the still-open socket performs a transport send. -/
theorem C10_ready_flag :
    (∀ (c : Client) (msg : InboundMsg), msg.type_ ≠ some "session_ready" →
      (c.onMessage msg).1.sessionReady = c.sessionReady) ∧
    (∀ (c : Client) (p : String),
      c.connect.sessionReady = c.sessionReady ∧
      c.onOpen.sessionReady = c.sessionReady ∧
      c.onError.sessionReady = c.sessionReady ∧
      (c.sendAudio p).sessionReady = c.sessionReady ∧
      c.sendKeepalive.sessionReady = c.sessionReady ∧
      c.onClose.sessionReady = false ∧
      c.disconnect.sessionReady = false) ∧
    (afterFatal.state = Vox8ClientState.error ∧
     afterFatal.sessionReady = true ∧
     (afterFatal.sendAudio "AAAA").ws =
       some ⟨.opened, [buildSessionStart clientTok.config, .audioOut "AAAA"]⟩) := by
  refine ⟨?_, ?_, rfl, rfl, rfl⟩
  · intro c msg h
    simp only [Client.onMessage, Client.handleMessage]
    split_ifs with h1 h2 h3 h4 h5 <;> try rfl
    · exact absurd h1 h
    · cases c.player <;> rfl
  · intro c p
    refine ⟨?_, ?_, rfl, ?_, ?_, rfl, ?_⟩
    · unfold Client.connect
      split <;> rfl
    · unfold Client.onOpen
      cases c.ws <;> rfl
    · unfold Client.sendAudio
      split
      · rfl
      · split <;> rfl
    · unfold Client.sendKeepalive
      split
      · rfl
      · split <;> rfl
    · unfold Client.disconnect
      split
      · split <;> rfl
      · rfl

/-- Witness for `C10_ready_flag`: delivering the fatal error fixture to the
ready client preserves the session-ready flag. -/
theorem C10_witness :
    (afterReady.onMessage msgFatal).1.sessionReady = afterReady.sessionReady :=
  C10_ready_flag.1 afterReady msgFatal (by decide)

/-- Enqueueing onto a player that is already playing only appends to the
queue; folding over a whole list appends the list. -/
theorem foldl_enqueueStep_playing {α : Type} (L : List α) (q : List α) (p : Option α) :
    L.foldl PlayerRun.enqueueStep ⟨⟨q, true⟩, p⟩ = ⟨⟨q ++ L, true⟩, p⟩ := by
  induction L generalizing q with
  | nil => simp
  | cons h t ih =>
      simp only [List.foldl_cons, PlayerRun.enqueueStep]
      simpa using ih (q ++ [h])

/-- Enqueueing a non-empty batch from idle leaves the first segment pending
and the rest queued, so the run drains `h` then `t`. -/
theorem runFromIdle_cons {α : Type} (ok : α → Bool) (h : α) (t : List α) :
    runFromIdle ok (h :: t) = drainTrace ok h t := by
  simp [runFromIdle, PlayerRun.idle, List.foldl_cons, PlayerRun.enqueueStep,
    foldl_enqueueStep_playing]

/-- The renders of a drain are exactly the decodable segments, in order. -/
theorem rendersOf_drainTrace {α : Type} (ok : α → Bool) (h : α) (t : List α) :
    rendersOf (drainTrace ok h t) = (h :: t).filter ok := by
  induction t generalizing h with
  | nil => by_cases hh : ok h <;> simp [drainTrace, rendersOf, hh, List.filter]
  | cons h' t ih =>
      by_cases hh : ok h <;>
        simp [drainTrace, rendersOf, hh, List.filter_cons, ih]

/-- A drain is sequential: renders never overlap. -/
theorem wellSeq_drainTrace {α : Type} [DecidableEq α] (ok : α → Bool) (h : α) (t : List α) :
    wellSeq (drainTrace ok h t) = true := by
  induction t generalizing h with
  | nil => by_cases hh : ok h <;> simp [drainTrace, wellSeq, hh]
  | cons h' t ih => by_cases hh : ok h <;> simp [drainTrace, wellSeq, hh, ih]

/-- Claim C7: enqueueing any batch of segments into the idle player yields
render invocations exactly for the segments whose decode succeeds, strictly
in enqueue order, one at a time and never overlapping — a decode/render
failure only skips its own segment. -/
theorem C7_playback (ok : String → Bool) (L : List String) :
    rendersOf (runFromIdle ok L) = L.filter ok ∧
    wellSeq (runFromIdle ok L) = true := by
  cases L with
  | nil => exact ⟨rfl, rfl⟩
  | cons h t =>
      rw [runFromIdle_cons]
      exact ⟨rendersOf_drainTrace ok h t, wellSeq_drainTrace ok h t⟩

/-- Claim C9: the sample converter maps 0 to 0, 1 to 32767, -1 to -32768,
clamps out-of-range inputs (2 to 32767, -2 to -32768, and in general), and
on in-range samples scales negatives by 32768 and non-negatives by
32767. -/
theorem C9_pcm :
    floatTo16BitPCM [0, 1, -1, 2, -2] = [0, 32767, -32768, 32767, -32768] ∧
    (∀ x : ℚ, 1 < x → floatTo16BitPCM1 x = 32767) ∧
    (∀ x : ℚ, x < -1 → floatTo16BitPCM1 x = -32768) ∧
    (∀ x : ℚ, -1 ≤ x → x ≤ 1 →
      floatTo16BitPCM1 x = toInt16 (if x < 0 then x * 32768 else x * 32767)) := by
  refine ⟨?_, ?_, ?_, ?_⟩
  · simp [floatTo16BitPCM]
    norm_num [floatTo16BitPCM1, toInt16, truncQ]
  · intro x hx
    have h1 : min 1 x = 1 := min_eq_left hx.le
    have h2 : max (-1 : ℚ) 1 = 1 := by norm_num
    rw [floatTo16BitPCM1, h1, h2]
    norm_num [toInt16, truncQ]
  · intro x hx
    have h1 : min 1 x = x := min_eq_right (by linarith)
    have h2 : max (-1 : ℚ) x = -1 := max_eq_left hx.le
    rw [floatTo16BitPCM1, h1, h2]
    norm_num [toInt16, truncQ]
  · intro x hx1 hx2
    have h1 : min 1 x = x := min_eq_right hx2
    have h2 : max (-1 : ℚ) x = x := max_eq_right hx1
    rw [floatTo16BitPCM1, h1, h2]

/-- Witness for `C9_pcm` at 3/2 (clamped high), -3/2 (clamped low) and
-1/2 (in range, scaled by 32768). -/
theorem C9_witness :
    floatTo16BitPCM1 (3 / 2) = 32767 ∧
    floatTo16BitPCM1 (-3 / 2) = -32768 ∧
    floatTo16BitPCM1 (-1 / 2) =
      toInt16 (if (-1 / 2 : ℚ) < 0 then (-1 / 2 : ℚ) * 32768 else (-1 / 2 : ℚ) * 32767) :=
  ⟨C9_pcm.2.1 (3 / 2) (by norm_num),
   C9_pcm.2.2.1 (-3 / 2) (by norm_num),
   C9_pcm.2.2.2 (-1 / 2) (by norm_num) (by norm_num)⟩

/-- Claim C2: for a client constructed from a config in session-token mode
(token truthy) or API-key mode (token falsy, key truthy), the
`session_start` frame sent when the transport opens carries the configured
target language, the source language defaulting to "auto" and the voice
mode defaulting to "match" when unspecified, and exactly the credential
field of the configured auth mode, the other absent. -/
theorem C2_session_start (cfg : Vox8Config) (c : Client)
    (hc : Client.create cfg = .ok c) :
    (truthy cfg.sessionToken = true →
      c.connect.onOpen.ws = some ⟨.opened,
        [.sessionStart (cfg.sourceLanguage.getD "auto") cfg.targetLanguage
          (cfg.voiceMode.getD "match") "pcm_s16le" cfg.sessionToken none]⟩) ∧
    (truthy cfg.sessionToken = false → truthy cfg.apiKey = true →
      c.connect.onOpen.ws = some ⟨.opened,
        [.sessionStart (cfg.sourceLanguage.getD "auto") cfg.targetLanguage
          (cfg.voiceMode.getD "match") "pcm_s16le" none cfg.apiKey]⟩) := by
  constructor
  · intro htok
    have hcond : (!truthy cfg.sessionToken && !truthy cfg.apiKey) = false := by
      simp [htok]
    rw [Client.create] at hc
    rw [hcond] at hc
    simp only [Bool.false_eq_true, if_false, Except.ok.injEq] at hc
    subst hc
    simp [Client.connect, Client.onOpen, buildSessionStart, htok]
  · intro htok hkey
    have hcond : (!truthy cfg.sessionToken && !truthy cfg.apiKey) = false := by
      simp [hkey]
    rw [Client.create] at hc
    rw [hcond] at hc
    simp only [Bool.false_eq_true, if_false, Except.ok.injEq] at hc
    subst hc
    simp [Client.connect, Client.onOpen, buildSessionStart, htok, hkey]

/-- Witness for `C2_session_start`: the session-token fixture sends
`session_token` and no `api_key`, with the default source language and
voice mode. -/
theorem C2_witness :
    clientTok.connect.onOpen.ws = some ⟨.opened,
      [.sessionStart (cfgTok.sourceLanguage.getD "auto") cfgTok.targetLanguage
        (cfgTok.voiceMode.getD "match") "pcm_s16le" cfgTok.sessionToken none]⟩ :=
  (C2_session_start cfgTok clientTok rfl).1 rfl

end Vox8
